import Mathlib

/-!
# Verification of `OLS_BackwardsSelection.py`

A shallow embedding of the `OLS_BackwardsSelection` class (backwards
selection of OLS predictors using the p-value as selection criterion),
together with theorems settling the specification claims about it.

Modelling conventions:
* Numeric values (p-values, R-squared, coefficients, data entries) are
  rationals `ℚ`; the claims are about comparisons and control flow, not
  floating-point rounding.
* A matrix is represented column-major, as a `List` of columns, so that
  `np.delete(M, i, axis=1)` is `List.eraseIdx` and the column count is
  `List.length`.
* A pandas `DataFrame` is a row count together with named columns.
* The external fitter `sm.OLS(y, x).fit()` is an abstract function
  (`Fitter`); the class under verification only consumes its fields
  `params`, `pvalues`, `rsquared`, `rsquared_adj`.
* Python runtime failures (attribute access on `None`, a missing column
  label in `.loc`) are modelled with `Except PyErr`.
* Mutation of `self` is modelled by explicit state passing: each method
  takes the current `OLSState` and returns the updated one.
-/

/-- A pandas data frame: a number of rows and a list of named columns
(each column is a list of that many values). -/
structure DataFrame where
  nrows : ℕ
  cols : List (String × List ℚ)
  deriving DecidableEq, Repr

/-- `df.loc[:, name]`: the first column labelled `name`, if any. -/
def lookupCol (df : DataFrame) (name : String) : Option (List ℚ) :=
  (df.cols.find? (fun p => p.1 == name)).map Prod.snd

/-- The result object returned by `sm.OLS(y, x).fit()`, restricted to the
fields the class reads: `params`, `pvalues` (aligned positionally with the
columns of the fitted matrix), `rsquared` and `rsquared_adj`. -/
structure FitResult where
  params : List ℚ
  pvalues : List ℚ
  rsquared : ℚ
  rsquared_adj : ℚ
  deriving DecidableEq, Repr

/-- The external linear-model fitter: from a target vector and a
column-major predictor matrix to a fit result.  Treated as an abstract
pure function (the statsmodels OLS solver is out of scope). -/
def Fitter : Type := List ℚ → List (List ℚ) → FitResult

/-- Python runtime errors surfaced by the class:
`NotFitted` models the `AttributeError` raised by reading an attribute of
`self.results` while it is still `None` (no fit has happened);
`UnknownVariable` models the `KeyError` of `.loc` on a missing label;
`TypeErr` models comparing `None` with a number. -/
inductive PyErr where
  | NotFitted
  | UnknownVariable
  | TypeErr
  deriving DecidableEq, Repr

/-- The instance attributes of an `OLS_BackwardsSelection` object.
`model` holds the `(y, x)` data captured by `sm.OLS(y, x)`. -/
structure OLSState where
  modelX : List (List ℚ)
  modelY : List ℚ
  /-- `self.variables` (that name is a reserved token in Lean). -/
  vars : List String
  modelXBack : Option (List (List ℚ))
  model : Option (List ℚ × List (List ℚ))
  results : Option FitResult
  coef : Option (List ℚ)
  Rsquared : Option ℚ
  Rsquared_adj : Option ℚ
  deriving DecidableEq, Repr

/-- `__init__(self, exog, endog)`: store `exog.values` (the matrix),
`endog`, and `exog.columns.values` (the variable names); everything else
starts as `None`.  No dimension check of any kind is performed. -/
def OLSinit (exog : DataFrame) (endog : List ℚ) : OLSState where
  modelX := exog.cols.map Prod.snd
  modelY := endog
  vars := exog.cols.map Prod.fst
  modelXBack := none
  model := none
  results := none
  coef := none
  Rsquared := none
  Rsquared_adj := none

/-- `modelOLS(self, y=None, x=None)`: if either argument is `None`, both
default to the stored full data (`self.modelY`, `self.modelX`); then the
external fitter is invoked and `model`, `results`, `coef`, `Rsquared`,
`Rsquared_adj` are all overwritten from the new fit. -/
def modelOLS (fitter : Fitter) (s : OLSState)
    (yArg : Option (List ℚ) := none)
    (xArg : Option (List (List ℚ)) := none) : OLSState :=
  let yx : List ℚ × List (List ℚ) :=
    match xArg, yArg with
    | some xv, some yv => (yv, xv)
    | _, _ => (s.modelY, s.modelX)
  let res := fitter yx.1 yx.2
  { s with
    model := some yx
    results := some res
    coef := some res.params
    Rsquared := some res.rsquared
    Rsquared_adj := some res.rsquared_adj }

/-- `_removeColumn(self, colNum)`: `del self.variables[colNum]` and
`self.modelXBack = np.delete(self.modelXBack, colNum, axis=1)` — the
synchronized pair of mutations. -/
def removeColumn (s : OLSState) (colNum : ℕ) : OLSState :=
  { s with
    vars := s.vars.eraseIdx colNum
    modelXBack := s.modelXBack.map (fun m => m.eraseIdx colNum) }

/-- `max(xs)` for a (nonempty) Python sequence; `0` is junk on `[]`
(Python would raise there, and every use site guards nonemptiness). -/
def maxList : List ℚ → ℚ
  | [] => 0
  | x :: xs => xs.foldl max x

/-- `np.where(pvalues == max(pvalues))[0][0]`: the first (lowest) index
holding the maximal value. -/
def argmaxIdx (l : List ℚ) : ℕ :=
  l.indexOf (maxList l)

/-- The literal `0.7` from the loop guard `self.Rsquared > 0.7`, spelled
with `mkRat` so that it evaluates by kernel reduction
(`ptSeven_eq : ptSeven = 7 / 10`). -/
def ptSeven : ℚ := mkRat 7 10

/-- The `while` guard of `backwardSelect`, with Python's left-to-right
short-circuit evaluation:
`sum(self.results.pvalues > criteria) != 0 and maxSteps >= iteration and
self.Rsquared > 0.7`.  Reading `.pvalues` off a `None` result raises
(`NotFitted`); comparing a `None` `Rsquared` with `0.7` raises
(`TypeErr`), but only if the first two conjuncts did not already
short-circuit to `False`. -/
def loopCond (criteria : ℚ) (maxSteps iteration : ℕ) (s : OLSState) :
    Except PyErr Bool :=
  match s.results with
  | none => .error .NotFitted
  | some r =>
    if r.pvalues.countP (fun p => decide (criteria < p)) = 0 then .ok false
    else if ¬ iteration ≤ maxSteps then .ok false
    else
      match s.Rsquared with
      | none => .error .TypeErr
      | some q => .ok (decide (ptSeven < q))

/-- One pass of the `while` body, given the latest fit result `r`:
`indexRemove = np.where(...)[0][0]`, `self._removeColumn(indexRemove)`,
`self.modelOLS(y=self.modelY, x=self.modelXBack)`. -/
def stepState (fitter : Fitter) (s : OLSState) (r : FitResult) : OLSState :=
  let s1 := removeColumn s (argmaxIdx r.pvalues)
  modelOLS fitter s1 (some s1.modelY) s1.modelXBack

/-- The `while` loop of `backwardSelect`, with the local `iteration`
counter made explicit and returned alongside the final state (it counts
exactly the elimination steps performed).  The loop is driven by a fuel
parameter for structural recursion; `backwardSelect` supplies
`maxSteps + 2` fuel, which `selectLoop_fuel_irrel` proves is enough that
the fuel never cuts the loop short (the guard already forces
`iteration ≤ maxSteps`), so the fuel-0 branch below agrees with the
guard-false exit whenever it is reachable from `backwardSelect`. -/
def selectLoop (fitter : Fitter) (criteria : ℚ) (maxSteps : ℕ) :
    ℕ → ℕ → OLSState → Except PyErr (OLSState × ℕ)
  | 0, iteration, s =>
    match loopCond criteria maxSteps iteration s with
    | .error e => .error e
    | .ok _ => .ok (s, iteration)
  | fuel + 1, iteration, s =>
    match loopCond criteria maxSteps iteration s with
    | .error e => .error e
    | .ok false => .ok (s, iteration)
    | .ok true =>
      match s.results with
      | none => .error .NotFitted
      | some r =>
        selectLoop fitter criteria maxSteps fuel (iteration + 1)
          (stepState fitter s r)

/-- The state right after the first two lines of `backwardSelect`:
`self.modelXBack = self.modelX.copy()` (and the local `iteration = 0`).
Nothing else — in particular not `self.variables` — is re-initialized. -/
def selectEntry (s : OLSState) : OLSState :=
  { s with modelXBack := some s.modelX }

/-- `backwardSelect(self, criteria=0.05, maxSteps=10)`: re-initialize the
working matrix, then run the elimination loop from `iteration = 0`.
Returns the final state together with the number of eliminations. -/
def backwardSelect (fitter : Fitter) (s : OLSState)
    (criteria : ℚ := mkRat 1 20) (maxSteps : ℕ := 10) :
    Except PyErr (OLSState × ℕ) :=
  selectLoop fitter criteria maxSteps (maxSteps + 2) 0 (selectEntry s)

/-- `exogTest.loc[:, self.variables]`: the columns named by `names`, in
that order; `none` (a `KeyError`) if any name is missing. -/
def selectCols (df : DataFrame) : List String → Option (List (List ℚ))
  | [] => some []
  | v :: vs =>
    match lookupCol df v, selectCols df vs with
    | some c, some cs => some (c :: cs)
    | _, _ => none

/-- A dot product, truncating at the shorter list. -/
def dotProd : List ℚ → List ℚ → ℚ
  | a :: as, b :: bs => a * b + dotProd as bs
  | _, _ => 0

/-- `predict(self, exogTest)`:
`self.results.predict(exogTest.loc[:, self.variables])`.
The attribute chain `self.results.predict` is evaluated first (raising
`NotFitted` on `None`), then the column selection (raising
`UnknownVariable` on a missing label), then one linear combination of the
selected columns with the stored coefficients per input row. -/
def predict (s : OLSState) (exogTest : DataFrame) : Except PyErr (List ℚ) :=
  match s.results with
  | none => .error .NotFitted
  | some r =>
    match selectCols exogTest s.vars with
    | none => .error .UnknownVariable
    | some cols =>
      .ok ((List.range exogTest.nrows).map
        (fun i => dotProd r.params (cols.map (fun col => col.getD i 0))))

/-- The method-call form of `predict`: the body of the Python method
contains no assignment to any attribute of `self` (it only reads
`self.results` and `self.variables`), so the state it hands back is the
state it received. -/
def predictM (s : OLSState) (exogTest : DataFrame) :
    OLSState × Except PyErr (List ℚ) :=
  (s, predict s exogTest)

/-! ## Concrete fixtures used by witnesses and counterexamples -/

/-- A fit result with high unadjusted R-squared (`0.9`) but low adjusted
R-squared (`0.5`), and a p-value above the default threshold. -/
def fitResHi : FitResult where
  params := [2, 3]
  pvalues := [mkRat 9 10, mkRat 1 10]
  rsquared := mkRat 9 10
  rsquared_adj := mkRat 1 2

/-- An external fitter that always returns `fitResHi`. -/
def constFitter : Fitter := fun _ _ => fitResHi

/-- A fit result with unadjusted R-squared `0.6 ≤ 0.7`. -/
def fitResLow : FitResult where
  params := [2, 3]
  pvalues := [mkRat 9 10, mkRat 1 10]
  rsquared := mkRat 3 5
  rsquared_adj := mkRat 1 2

/-- An external fitter that always returns `fitResLow`. -/
def lowFitter : Fitter := fun _ _ => fitResLow

/-- A two-column data frame with variables `A` and `B`. -/
def dfAB : DataFrame := ⟨2, [("A", [1, 2]), ("B", [3, 4])]⟩

/-- A freshly constructed selector on `dfAB` (no fit yet). -/
def s0 : OLSState := OLSinit dfAB [5, 6]

/-- `s0` after the initial full-model fit `modelOLS()` under
`constFitter`. -/
def sFit : OLSState := modelOLS constFitter s0

/-- `s0` after the initial full-model fit `modelOLS()` under
`lowFitter`. -/
def sFitLow : OLSState := modelOLS lowFitter s0

/-- The `(state, iteration)` outcome of
`backwardSelect(criteria=0.05, maxSteps=0)` on `sFit` (the error fallback
is never taken: the run succeeds). -/
def selOut : OLSState × ℕ :=
  match backwardSelect constFitter sFit (mkRat 1 20) 0 with
  | .ok p => p
  | .error _ => (sFit, 0)

/-! ## Helper lemmas -/

/-- A true `while` guard forces `iteration ≤ maxSteps`. -/
theorem loopCond_true_le {c : ℚ} {m it : ℕ} {s : OLSState}
    (h : loopCond c m it s = .ok true) : it ≤ m := by
  unfold loopCond at h
  cases hres : s.results with
  | none => rw [hres] at h; cases h
  | some r =>
    rw [hres] at h
    by_cases h1 : r.pvalues.countP (fun p => decide (c < p)) = 0
    · simp [h1] at h
    · by_cases h2 : it ≤ m
      · exact h2
      · simp [h1, h2] at h

/-- A true `while` guard forces a nonempty p-value vector. -/
theorem loopCond_true_pvalues_ne {c : ℚ} {m it : ℕ} {s : OLSState}
    {r : FitResult} (h : loopCond c m it s = .ok true)
    (hr : s.results = some r) : r.pvalues ≠ [] := by
  intro hnil
  unfold loopCond at h
  simp only [hr] at h
  rw [hnil] at h
  simp [List.countP, List.countP.go] at h

/-- The `while` guard of `backwardSelect`, on a fitted state, is true
exactly when some p-value strictly exceeds the threshold, the iteration
count is at most `maxSteps`, and the stored unadjusted R-squared strictly
exceeds `0.7`. -/
theorem loopCond_true_iff {c : ℚ} {m it : ℕ} {s : OLSState}
    {r : FitResult} {q : ℚ} (hr : s.results = some r)
    (hq : s.Rsquared = some q) :
    loopCond c m it s = .ok true ↔
      (∃ p ∈ r.pvalues, c < p) ∧ it ≤ m ∧ ptSeven < q := by
  have hcnt : r.pvalues.countP (fun p => decide (c < p)) = 0 ↔
      ¬ ∃ p ∈ r.pvalues, c < p := by
    rw [List.countP_eq_zero]
    simp
  unfold loopCond
  simp only [hr, hq]
  by_cases h1 : r.pvalues.countP (fun p => decide (c < p)) = 0
  · rw [if_pos h1]
    constructor
    · intro h; exact absurd h (by simp)
    · rintro ⟨hex, -, -⟩; exact absurd hex (hcnt.mp h1)
  · rw [if_neg h1]
    by_cases h2 : it ≤ m
    · rw [if_neg (by simpa using h2)]
      simp only [Except.ok.injEq, decide_eq_true_eq]
      constructor
      · intro h3; exact ⟨not_not.mp (fun hn => h1 (hcnt.mpr hn)), h2, h3⟩
      · rintro ⟨-, -, h3⟩; exact h3
    · rw [if_pos (by simpa using h2)]
      constructor
      · intro h; exact absurd h (by simp)
      · rintro ⟨-, hle, -⟩; exact absurd hle h2

/-- `List.foldl max a l` dominates the seed and every element. -/
theorem foldl_max_dominates :
    ∀ (l : List ℚ) (a : ℚ),
      a ≤ l.foldl max a ∧ ∀ x ∈ l, x ≤ l.foldl max a := by
  intro l
  induction l with
  | nil => intro a; exact ⟨le_refl a, by simp⟩
  | cons b bs ih =>
    intro a
    refine ⟨le_trans (le_max_left a b) (ih (max a b)).1, ?_⟩
    intro x hx
    rcases List.mem_cons.mp hx with rfl | hx
    · exact le_trans (le_max_right a x) (ih (max a x)).1
    · exact (ih (max a b)).2 x hx

/-- `List.foldl max a l` is the seed or one of the elements. -/
theorem foldl_max_mem :
    ∀ (l : List ℚ) (a : ℚ), l.foldl max a = a ∨ l.foldl max a ∈ l := by
  intro l
  induction l with
  | nil => intro a; exact Or.inl rfl
  | cons b bs ih =>
    intro a
    have hfold : (b :: bs).foldl max a = bs.foldl max (max a b) := rfl
    rcases ih (max a b) with h | h
    · rcases max_choice a b with hab | hab
      · exact Or.inl (by rw [hfold, h, hab])
      · refine Or.inr ?_
        rw [hfold, h, hab]
        exact List.mem_cons_self b bs
    · exact Or.inr (by rw [hfold]; exact List.mem_cons_of_mem b h)

/-- `max(l)` (Python `max`) is an element of a nonempty `l`. -/
theorem maxList_mem {l : List ℚ} (h : l ≠ []) : maxList l ∈ l := by
  cases l with
  | nil => exact absurd rfl h
  | cons x xs =>
    rcases foldl_max_mem xs x with h1 | h1
    · rw [maxList, h1]; exact List.mem_cons_self x xs
    · rw [maxList]; exact List.mem_cons_of_mem x h1

/-- Every element of `l` is at most `max(l)`. -/
theorem le_maxList {l : List ℚ} {x : ℚ} (hx : x ∈ l) : x ≤ maxList l := by
  cases l with
  | nil => cases hx
  | cons b bs =>
    rcases List.mem_cons.mp hx with rfl | hmem
    · exact (foldl_max_dominates bs x).1
    · exact (foldl_max_dominates bs b).2 x hmem

/-- `l.indexOf a` for `a ∈ l` points at an occurrence of `a`, and every
strictly earlier position holds a different value. -/
theorem indexOf_getD_minimal {a : ℚ} :
    ∀ l : List ℚ, a ∈ l →
      l.getD (l.indexOf a) 0 = a ∧
        ∀ j, j < l.indexOf a → l.getD j 0 ≠ a := by
  intro l
  induction l with
  | nil => intro h; cases h
  | cons x xs ih =>
    intro hmem
    by_cases hx : x = a
    · refine ⟨?_, ?_⟩
      · rw [List.indexOf_cons_eq _ hx]
        simpa using hx
      · intro j hj
        rw [List.indexOf_cons_eq _ hx] at hj
        omega
    · have hxs : a ∈ xs := by
        rcases List.mem_cons.mp hmem with h | h
        · exact absurd h.symm hx
        · exact h
      refine ⟨?_, ?_⟩
      · rw [List.indexOf_cons_ne _ hx]
        simpa using (ih hxs).1
      · intro j hj
        rw [List.indexOf_cons_ne _ hx] at hj
        cases j with
        | zero => simpa using hx
        | succ k =>
          have := (ih hxs).2 k (by omega)
          simpa using this

/-- The full specification of `np.where(l == max(l))[0][0]`: it is a
valid index, it holds the maximal value of `l`, every element of `l` is
at most that value, and every strictly lower index holds a value that is
not the maximum. -/
theorem argmaxIdx_spec {l : List ℚ} (h : l ≠ []) :
    argmaxIdx l < l.length ∧
      l.getD (argmaxIdx l) 0 = maxList l ∧
      (∀ p ∈ l, p ≤ maxList l) ∧
      ∀ j, j < argmaxIdx l → l.getD j 0 ≠ maxList l := by
  have hmem := maxList_mem h
  refine ⟨List.indexOf_lt_length.mpr hmem, (indexOf_getD_minimal l hmem).1,
    fun p hp => le_maxList hp, (indexOf_getD_minimal l hmem).2⟩

/-- Unfolding one pass of the `while` loop when the guard is true: the
loop recurses on `stepState` with the iteration counter incremented. -/
theorem selectLoop_step (fitter : Fitter) {c : ℚ} {m : ℕ} (fuel : ℕ)
    {it : ℕ} {s : OLSState} {r : FitResult}
    (hc : loopCond c m it s = .ok true) (hr : s.results = some r) :
    selectLoop fitter c m (fuel + 1) it s =
      selectLoop fitter c m fuel (it + 1) (stepState fitter s r) := by
  rw [selectLoop, hc, hr]

/-- Exiting the loop with a false guard returns the current state and
iteration count unchanged. -/
theorem selectLoop_exit (fitter : Fitter) {c : ℚ} {m : ℕ} (fuel : ℕ)
    {it : ℕ} {s : OLSState}
    (hc : loopCond c m it s = .ok false) :
    selectLoop fitter c m (fuel + 1) it s = .ok (s, it) := by
  rw [selectLoop, hc]

/-- Whenever the loop returns normally, the returned iteration count is
the starting count (no pass ran) or at most `maxSteps + 1` (the guard
admits a final pass at `iteration = maxSteps`). -/
theorem selectLoop_steps (fitter : Fitter) (c : ℚ) (m : ℕ) :
    ∀ (fuel it : ℕ) (s s' : OLSState) (k : ℕ),
      selectLoop fitter c m fuel it s = .ok (s', k) →
      k = it ∨ k ≤ m + 1 := by
  intro fuel
  induction fuel with
  | zero =>
    intro it s s' k h
    rw [selectLoop] at h
    cases hlc : loopCond c m it s with
    | error e => rw [hlc] at h; cases h
    | ok b =>
      rw [hlc] at h
      cases h
      exact Or.inl rfl
  | succ fuel ih =>
    intro it s s' k h
    rw [selectLoop] at h
    cases hlc : loopCond c m it s with
    | error e => rw [hlc] at h; cases h
    | ok b =>
      rw [hlc] at h
      cases b with
      | false => cases h; exact Or.inl rfl
      | true =>
        cases hres : s.results with
        | none => rw [hres] at h; cases h
        | some r =>
          rw [hres] at h
          have hle := loopCond_true_le hlc
          rcases ih (it + 1) _ s' k h with h1 | h1
          · exact Or.inr (by omega)
          · exact Or.inr h1

/-- Fuel adequacy: once `iteration + fuel` covers `maxSteps + 1`, adding
more fuel cannot change the outcome of the loop — the guard's
`maxSteps >= iteration` conjunct stops it first.  In particular
`backwardSelect`'s allowance of `maxSteps + 2` units of fuel is
invisible: the embedded loop behaves as the unbounded Python `while`. -/
theorem selectLoop_fuel_irrel (fitter : Fitter) (c : ℚ) (m : ℕ) :
    ∀ (fuel it : ℕ) (s : OLSState), m + 1 ≤ it + fuel →
      selectLoop fitter c m (fuel + 1) it s =
        selectLoop fitter c m fuel it s := by
  intro fuel
  induction fuel with
  | zero =>
    intro it s hit
    cases hlc : loopCond c m it s with
    | error e => rw [selectLoop, hlc, selectLoop, hlc]
    | ok b =>
      cases b with
      | false => rw [selectLoop, hlc, selectLoop, hlc]
      | true => exact absurd (loopCond_true_le hlc) (by omega)
  | succ fuel ih =>
    intro it s hit
    cases hlc : loopCond c m it s with
    | error e => rw [selectLoop, hlc, selectLoop, hlc]
    | ok b =>
      cases b with
      | false => rw [selectLoop, hlc, selectLoop, hlc]
      | true =>
        cases hres : s.results with
        | none => rw [selectLoop, hlc, hres, selectLoop, hlc, hres]
        | some r =>
          rw [selectLoop, hlc, hres, selectLoop, hlc, hres]
          exact ih (it + 1) _ (by omega)

/-- The loop-guard constant is the decimal `0.7`. -/
theorem ptSeven_eq : ptSeven = 7 / 10 := by
  norm_num [ptSeven, Rat.mkRat_eq_div]

/-! ## Claim theorems -/

/-- C1 (as amended): an elimination step is performed only while all
three guard conditions hold against the latest fit result — some current
p-value strictly exceeds the threshold, the iteration count is **at
most** `maxSteps`, and the current **unadjusted** R-squared strictly
exceeds 0.7; consequently, if the initial unadjusted R-squared is at most
0.7, `backwardSelect` performs zero elimination steps regardless of the
p-values. -/
theorem backwardSelect_guard_characterization
    (fitter : Fitter) (c : ℚ) (m it : ℕ) (s : OLSState)
    (r : FitResult) (q : ℚ)
    (hr : s.results = some r) (hq : s.Rsquared = some q) :
    ptSeven = 7 / 10
    ∧ (loopCond c m it s = .ok true ↔
      (∃ p ∈ r.pvalues, c < p) ∧ it ≤ m ∧ ptSeven < q)
    ∧ (q ≤ 7 / 10 →
        backwardSelect fitter s c m = .ok (selectEntry s, 0)) := by
  refine ⟨ptSeven_eq, loopCond_true_iff hr hq, ?_⟩
  intro hle
  have hres : (selectEntry s).results = some r := hr
  have hrsq : (selectEntry s).Rsquared = some q := hq
  have hfalse : loopCond c m 0 (selectEntry s) = .ok false := by
    unfold loopCond
    simp only [hres, hrsq]
    by_cases h1 : r.pvalues.countP (fun p => decide (c < p)) = 0
    · rw [if_pos h1]
    · rw [if_neg h1, if_neg (by simp)]
      have hq7 : ¬ ptSeven < q := by rw [ptSeven_eq]; exact not_lt.mpr hle
      simp [hq7]
  show selectLoop fitter c m (m + 1 + 1) 0 (selectEntry s) = _
  exact selectLoop_exit fitter (m + 1) hfalse

/-- Witness for `backwardSelect_guard_characterization` at
`lowFitter` / `sFitLow`. -/
theorem backwardSelect_guard_characterization_witness :
    (ptSeven = 7 / 10
    ∧ (loopCond (mkRat 1 20) 10 0 sFitLow = .ok true ↔
      (∃ p ∈ fitResLow.pvalues, mkRat 1 20 < p) ∧ 0 ≤ 10 ∧
        ptSeven < mkRat 3 5)
    ∧ (mkRat 3 5 ≤ 7 / 10 →
        backwardSelect lowFitter sFitLow (mkRat 1 20) 10 =
          .ok (selectEntry sFitLow, 0))) :=
  backwardSelect_guard_characterization lowFitter (mkRat 1 20) 10 0 sFitLow
    fitResLow (mkRat 3 5) rfl rfl

/-- C1 counterexample: with `maxSteps = 0` and initial **adjusted**
R-squared `1/2 ≤ 0.7` (but unadjusted R-squared `9/10 > 0.7`),
`backwardSelect` still performs one elimination step — so neither the
"iteration count below max_iterations" condition nor the "adjusted
R-squared exceeds 0.7" condition of the claim matches the code. -/
theorem backwardSelect_guard_claim_counterexample :
    sFit.Rsquared_adj = some (mkRat 1 2)
    ∧ (mkRat 1 2 : ℚ) ≤ 7 / 10
    ∧ (backwardSelect constFitter sFit (mkRat 1 20) 0).map Prod.snd = .ok 1
    ∧ (1 : ℕ) ≠ 0 := by
  refine ⟨rfl, by norm_num [Rat.mkRat_eq_div], by rfl, by decide⟩

/-- C2 (as amended): `backwardSelect` always terminates, and when it
returns normally the number of elimination steps performed is at most
`maxSteps + 1` (the guard compares `maxSteps >= iteration`, admitting a
final pass at `iteration = maxSteps`). -/
theorem backwardSelect_step_bound (fitter : Fitter) (c : ℚ) (m : ℕ)
    (s s' : OLSState) (k : ℕ)
    (h : backwardSelect fitter s c m = .ok (s', k)) : k ≤ m + 1 := by
  unfold backwardSelect at h
  rcases selectLoop_steps fitter c m (m + 2) 0 (selectEntry s) s' k h
    with h1 | h1
  · omega
  · exact h1

/-- Witness for `backwardSelect_step_bound` at the `maxSteps = 0` run. -/
theorem backwardSelect_step_bound_witness :
    backwardSelect constFitter sFit (mkRat 1 20) 0 = .ok selOut
    ∧ selOut.2 ≤ 0 + 1 :=
  ⟨by rfl, backwardSelect_step_bound constFitter (mkRat 1 20) 0 sFit
    selOut.1 selOut.2 (by rfl)⟩

/-- C2 counterexample: with `maxSteps = 0` the loop performs one
elimination step, exceeding the claimed bound of `max_iterations = 0`
steps. -/
theorem backwardSelect_steps_exceed_maxSteps :
    (backwardSelect constFitter sFit (mkRat 1 20) 0).map Prod.snd = .ok 1
    ∧ ¬ (1 : ℕ) ≤ 0 :=
  ⟨by rfl, by decide⟩

/-- C3: on every loop pass (a pass happens exactly when the guard is
true) the registry entry removed is the one at index
`argmaxIdx r.pvalues` of the latest fit's p-values — a valid index
holding the maximal p-value, every p-value being at most that maximum,
and every strictly lower index holding a non-maximal p-value, so ties go
to the lowest column index. -/
theorem step_removes_first_max_pvalue
    (fitter : Fitter) (c : ℚ) (m fuel it : ℕ) (s : OLSState)
    (r : FitResult)
    (hc : loopCond c m it s = .ok true) (hr : s.results = some r) :
    selectLoop fitter c m (fuel + 1) it s =
      selectLoop fitter c m fuel (it + 1) (stepState fitter s r)
    ∧ (stepState fitter s r).vars = s.vars.eraseIdx (argmaxIdx r.pvalues)
    ∧ argmaxIdx r.pvalues < r.pvalues.length
    ∧ r.pvalues.getD (argmaxIdx r.pvalues) 0 = maxList r.pvalues
    ∧ (∀ p ∈ r.pvalues, p ≤ maxList r.pvalues)
    ∧ ∀ j, j < argmaxIdx r.pvalues →
        r.pvalues.getD j 0 ≠ maxList r.pvalues := by
  have hne := loopCond_true_pvalues_ne hc hr
  obtain ⟨h1, h2, h3, h4⟩ := argmaxIdx_spec hne
  exact ⟨selectLoop_step fitter fuel hc hr, rfl, h1, h2, h3, h4⟩

/-- Witness for `step_removes_first_max_pvalue` on the first pass of the
`constFitter` run. -/
theorem step_removes_first_max_pvalue_witness :
    selectLoop constFitter (mkRat 1 20) 0 (0 + 1) 0 (selectEntry sFit) =
      selectLoop constFitter (mkRat 1 20) 0 0 (0 + 1)
        (stepState constFitter (selectEntry sFit) fitResHi)
    ∧ (stepState constFitter (selectEntry sFit) fitResHi).vars =
        (selectEntry sFit).vars.eraseIdx (argmaxIdx fitResHi.pvalues)
    ∧ argmaxIdx fitResHi.pvalues < fitResHi.pvalues.length
    ∧ fitResHi.pvalues.getD (argmaxIdx fitResHi.pvalues) 0 =
        maxList fitResHi.pvalues
    ∧ (∀ p ∈ fitResHi.pvalues, p ≤ maxList fitResHi.pvalues)
    ∧ ∀ j, j < argmaxIdx fitResHi.pvalues →
        fitResHi.pvalues.getD j 0 ≠ maxList fitResHi.pvalues :=
  step_removes_first_max_pvalue constFitter (mkRat 1 20) 0 0 0
    (selectEntry sFit) fitResHi (by rfl) rfl

/-- C4 (as amended): at the start of every call, `backwardSelect`
re-initializes the working matrix as a copy of the full predictor matrix
and resets the iteration counter to zero, but it does **not**
re-initialize the variable registry (nor any other field): the registry
keeps whatever value previous calls left in it. -/
theorem backwardSelect_entry_state (fitter : Fitter) (s : OLSState)
    (c : ℚ) (m : ℕ) :
    backwardSelect fitter s c m =
      selectLoop fitter c m (m + 2) 0 (selectEntry s)
    ∧ (selectEntry s).modelXBack = some s.modelX
    ∧ (selectEntry s).vars = s.vars
    ∧ (selectEntry s).modelX = s.modelX
    ∧ (selectEntry s).modelY = s.modelY
    ∧ (selectEntry s).results = s.results
    ∧ (selectEntry s).coef = s.coef
    ∧ (selectEntry s).Rsquared = s.Rsquared
    ∧ (selectEntry s).Rsquared_adj = s.Rsquared_adj :=
  ⟨rfl, rfl, rfl, rfl, rfl, rfl, rfl, rfl, rfl⟩

/-- C4 counterexample: after a first call that eliminated `A`, a second
call to `backwardSelect` starts with registry `["B"]`, not with a fresh
copy of the original identifiers `["A", "B"]`. -/
theorem backwardSelect_registry_not_reset :
    (backwardSelect constFitter sFit (mkRat 1 20) 0).map
        (fun p => (selectEntry p.1).vars) = .ok ["B"]
    ∧ sFit.vars = ["A", "B"]
    ∧ (["B"] : List String) ≠ ["A", "B"] :=
  ⟨by rfl, rfl, by decide⟩

/-- Unfolding `modelOLS` when both arguments are supplied. -/
theorem modelOLS_some (fitter : Fitter) (s : OLSState) (y : List ℚ)
    (x : List (List ℚ)) :
    modelOLS fitter s (some y) (some x) =
      { s with
        model := some (y, x)
        results := some (fitter y x)
        coef := some (fitter y x).params
        Rsquared := some (fitter y x).rsquared
        Rsquared_adj := some (fitter y x).rsquared_adj } := rfl

/-- C5: on each loop pass (guard true), after the chosen column is
removed the model is re-fit on the shrunk working matrix and the
unchanged target vector, and the stored fit result, coefficients,
R-squared and adjusted R-squared are all overwritten with the new fit's
values; the loop then re-checks its guard on exactly this refitted
state. -/
theorem step_refits_and_overwrites
    (fitter : Fitter) (c : ℚ) (m fuel it : ℕ) (s : OLSState)
    (r : FitResult) (M : List (List ℚ))
    (hc : loopCond c m it s = .ok true) (hr : s.results = some r)
    (hM : s.modelXBack = some M) :
    selectLoop fitter c m (fuel + 1) it s =
      selectLoop fitter c m fuel (it + 1) (stepState fitter s r)
    ∧ (stepState fitter s r).modelXBack =
        some (M.eraseIdx (argmaxIdx r.pvalues))
    ∧ (stepState fitter s r).results =
        some (fitter s.modelY (M.eraseIdx (argmaxIdx r.pvalues)))
    ∧ (stepState fitter s r).coef =
        some (fitter s.modelY (M.eraseIdx (argmaxIdx r.pvalues))).params
    ∧ (stepState fitter s r).Rsquared =
        some (fitter s.modelY (M.eraseIdx (argmaxIdx r.pvalues))).rsquared
    ∧ (stepState fitter s r).Rsquared_adj =
        some (fitter s.modelY
          (M.eraseIdx (argmaxIdx r.pvalues))).rsquared_adj
    ∧ (stepState fitter s r).modelY = s.modelY := by
  have hback : (removeColumn s (argmaxIdx r.pvalues)).modelXBack =
      some (M.eraseIdx (argmaxIdx r.pvalues)) := by
    simp [removeColumn, hM]
  have hstep : stepState fitter s r =
      modelOLS fitter (removeColumn s (argmaxIdx r.pvalues))
        (some (removeColumn s (argmaxIdx r.pvalues)).modelY)
        (some (M.eraseIdx (argmaxIdx r.pvalues))) := by
    show modelOLS fitter (removeColumn s (argmaxIdx r.pvalues))
        (some (removeColumn s (argmaxIdx r.pvalues)).modelY)
        (removeColumn s (argmaxIdx r.pvalues)).modelXBack = _
    rw [hback]
  refine ⟨selectLoop_step fitter fuel hc hr, ?_, ?_, ?_, ?_, ?_, ?_⟩ <;>
    rw [hstep, modelOLS_some] <;>
    simp [removeColumn, hM]

/-- Witness for `step_refits_and_overwrites` on the first pass of the
`constFitter` run. -/
theorem step_refits_and_overwrites_witness :
    selectLoop constFitter (mkRat 1 20) 0 (0 + 1) 0 (selectEntry sFit) =
      selectLoop constFitter (mkRat 1 20) 0 0 (0 + 1)
        (stepState constFitter (selectEntry sFit) fitResHi)
    ∧ (stepState constFitter (selectEntry sFit) fitResHi).modelXBack =
        some (s0.modelX.eraseIdx (argmaxIdx fitResHi.pvalues))
    ∧ (stepState constFitter (selectEntry sFit) fitResHi).results =
        some (constFitter (selectEntry sFit).modelY
          (s0.modelX.eraseIdx (argmaxIdx fitResHi.pvalues)))
    ∧ (stepState constFitter (selectEntry sFit) fitResHi).coef =
        some (constFitter (selectEntry sFit).modelY
          (s0.modelX.eraseIdx (argmaxIdx fitResHi.pvalues))).params
    ∧ (stepState constFitter (selectEntry sFit) fitResHi).Rsquared =
        some (constFitter (selectEntry sFit).modelY
          (s0.modelX.eraseIdx (argmaxIdx fitResHi.pvalues))).rsquared
    ∧ (stepState constFitter (selectEntry sFit) fitResHi).Rsquared_adj =
        some (constFitter (selectEntry sFit).modelY
          (s0.modelX.eraseIdx (argmaxIdx fitResHi.pvalues))).rsquared_adj
    ∧ (stepState constFitter (selectEntry sFit) fitResHi).modelY =
        (selectEntry sFit).modelY :=
  step_refits_and_overwrites constFitter (mkRat 1 20) 0 0 0
    (selectEntry sFit) fitResHi s0.modelX (by rfl) rfl rfl

/-- C6 (as amended): `_removeColumn` with an in-range index performs the
column removal and the identifier removal as a synchronized pair — the
registry length decreases by exactly 1, the working matrix loses exactly
one column, and if the alignment `len(registry) = column count` held
before the mutation it holds after it.  (The unrestricted claim — that
the alignment holds after *every* mutation — fails: the working-matrix
re-initialization at the start of a later `backwardSelect` call is a
mutation after which the alignment is broken, because the registry is
not re-initialized; see `registry_matrix_misalignment`.) -/
theorem removeColumn_sync (s : OLSState) (M : List (List ℚ)) (i : ℕ)
    (hM : s.modelXBack = some M) (hlen : s.vars.length = M.length)
    (hi : i < s.vars.length) :
    (removeColumn s i).vars.length = s.vars.length - 1
    ∧ (removeColumn s i).modelXBack = some (M.eraseIdx i)
    ∧ (M.eraseIdx i).length = M.length - 1
    ∧ (removeColumn s i).vars.length = (M.eraseIdx i).length := by
  have h1 : (s.vars.eraseIdx i).length + 1 = s.vars.length :=
    List.length_eraseIdx_add_one hi
  have h2 : (M.eraseIdx i).length + 1 = M.length :=
    List.length_eraseIdx_add_one (by omega)
  refine ⟨by simp only [removeColumn]; omega,
    by simp [removeColumn, hM], by omega,
    by simp only [removeColumn]; omega⟩

/-- Witness for `removeColumn_sync` on the aligned two-column state. -/
theorem removeColumn_sync_witness :
    (removeColumn (selectEntry sFit) 0).vars.length =
      (selectEntry sFit).vars.length - 1
    ∧ (removeColumn (selectEntry sFit) 0).modelXBack =
        some (s0.modelX.eraseIdx 0)
    ∧ (s0.modelX.eraseIdx 0).length = s0.modelX.length - 1
    ∧ (removeColumn (selectEntry sFit) 0).vars.length =
        (s0.modelX.eraseIdx 0).length :=
  removeColumn_sync (selectEntry sFit) s0.modelX 0 rfl (by rfl) (by decide)

/-- C6 counterexample: the working-matrix re-initialization at the start
of a second `backwardSelect` call is a selector mutation after which the
registry has 1 entry while the working matrix has 2 columns. -/
theorem registry_matrix_misalignment :
    (backwardSelect constFitter sFit (mkRat 1 20) 0).map
        (fun p => ((selectEntry p.1).vars.length,
          (selectEntry p.1).modelXBack.map List.length)) =
      .ok (1, some 2)
    ∧ (1 : ℕ) ≠ 2 :=
  ⟨by rfl, by decide⟩

/-- C7: on a selector with no fit yet (`results` is `None`), both
`backwardSelect` and `predict` fail with the not-fitted error (the
attribute access on the `None` fit result), and neither succeeds. -/
theorem select_predict_require_fit (fitter : Fitter) (c : ℚ) (m : ℕ)
    (s : OLSState) (df : DataFrame) (h : s.results = none) :
    backwardSelect fitter s c m = .error .NotFitted
    ∧ predict s df = .error .NotFitted := by
  constructor
  · have hres : (selectEntry s).results = none := h
    have hlc : loopCond c m 0 (selectEntry s) = .error .NotFitted := by
      unfold loopCond
      rw [hres]
    show selectLoop fitter c m (m + 1 + 1) 0 (selectEntry s) = _
    rw [selectLoop, hlc]
  · unfold predict
    rw [h]

/-- Witness for `select_predict_require_fit` on the freshly constructed
selector `s0`. -/
theorem select_predict_require_fit_witness :
    backwardSelect constFitter s0 (mkRat 1 20) 10 = .error .NotFitted
    ∧ predict s0 dfAB = .error .NotFitted :=
  select_predict_require_fit constFitter (mkRat 1 20) 10 s0 dfAB rfl

/-- C8 (as amended): construction stores the predictor matrix, the
variable identifiers and the target vector unconditionally and always
succeeds; no comparison between the target-vector length and the
observation count is made, so a dimension mismatch is *not* rejected at
construction. -/
theorem init_stores_unconditionally (exog : DataFrame) (endog : List ℚ) :
    OLSinit exog endog =
      { modelX := exog.cols.map Prod.snd
        modelY := endog
        vars := exog.cols.map Prod.fst
        modelXBack := none
        model := none
        results := none
        coef := none
        Rsquared := none
        Rsquared_adj := none } := rfl

/-- C8 counterexample: a target of length 1 against 2 observations is
accepted — construction succeeds and stores both, raising nothing. -/
theorem init_no_dimension_check :
    (⟨2, [("A", [1, 2])]⟩ : DataFrame).nrows ≠ ([(5 : ℚ)]).length
    ∧ (OLSinit ⟨2, [("A", [1, 2])]⟩ [5]).modelY = [5]
    ∧ (OLSinit ⟨2, [("A", [1, 2])]⟩ [5]).modelX = [[1, 2]] :=
  ⟨by decide, rfl, rfl⟩

/-- Column selection by name depends only on the named columns: two
frames agreeing on every requested label select the same columns. -/
theorem selectCols_congr {df1 df2 : DataFrame} :
    ∀ names : List String,
      (∀ v ∈ names, lookupCol df1 v = lookupCol df2 v) →
      selectCols df1 names = selectCols df2 names := by
  intro names
  induction names with
  | nil => intro _; rfl
  | cons v vs ih =>
    intro h
    unfold selectCols
    rw [h v (List.mem_cons_self v vs),
      ih (fun w hw => h w (List.mem_cons_of_mem v hw))]

/-- A fitted single-variable selector state used by the prediction
witnesses. -/
def sPred : OLSState where
  modelX := [[3, 4]]
  modelY := [5, 6]
  vars := ["B"]
  modelXBack := none
  model := none
  results := some ⟨[2], [mkRat 1 10], mkRat 9 10, mkRat 4 5⟩
  coef := some [2]
  Rsquared := some (mkRat 9 10)
  Rsquared_adj := some (mkRat 4 5)

/-- Prediction input holding exactly the surviving column `B`. -/
def dfB : DataFrame := ⟨2, [("B", [3, 4])]⟩

/-- Prediction input holding an extra unused column `C` before `B`. -/
def dfCB : DataFrame := ⟨2, [("C", [7, 8]), ("B", [3, 4])]⟩

/-- C9: `predict` selects and reorders the input's columns to match the
current registry order and applies the stored coefficients as a linear
combination, one value per input row; consequently two inputs with the
same row count that agree on every surviving-variable column — in
particular, the same columns in any order, with or without extra unused
columns — yield identical output. -/
theorem predict_registry_alignment
    (s : OLSState) (r : FitResult) (df1 df2 : DataFrame)
    (cols : List (List ℚ))
    (hr : s.results = some r)
    (hsel : selectCols df1 s.vars = some cols)
    (hn : df1.nrows = df2.nrows)
    (hcols : ∀ v ∈ s.vars, lookupCol df1 v = lookupCol df2 v) :
    predict s df1 = .ok ((List.range df1.nrows).map
        (fun i => dotProd r.params (cols.map (fun col => col.getD i 0))))
    ∧ predict s df1 = predict s df2 := by
  have hsel2 : selectCols df2 s.vars = some cols := by
    rw [← selectCols_congr s.vars hcols]
    exact hsel
  constructor
  · unfold predict
    rw [hr, hsel]
  · unfold predict
    rw [hr, hsel, hsel2, hn]

/-- Witness for `predict_registry_alignment`: the same predictions on
`B`-only data and on data with an extra column `C` in front. -/
theorem predict_registry_alignment_witness :
    predict sPred dfB = .ok ((List.range dfB.nrows).map
        (fun i => dotProd [2] ([[(3 : ℚ), 4]].map
          (fun col => col.getD i 0))))
    ∧ predict sPred dfB = predict sPred dfCB :=
  predict_registry_alignment sPred ⟨[2], [mkRat 1 10], mkRat 9 10, mkRat 4 5⟩
    dfB dfCB [[3, 4]] rfl rfl rfl (by decide)

/-- C10: a `predict` call leaves the selector's entire state unchanged —
the method body assigns no attribute of `self`, so the registry, the
original and working matrices, the target vector, the stored fit result,
coefficients, R-squared and adjusted R-squared are identical before and
after the call. -/
theorem predict_frame_invariant (s : OLSState) (df : DataFrame) :
    (predictM s df).1 = s
    ∧ (predictM s df).1.vars = s.vars
    ∧ (predictM s df).1.modelX = s.modelX
    ∧ (predictM s df).1.modelXBack = s.modelXBack
    ∧ (predictM s df).1.modelY = s.modelY
    ∧ (predictM s df).1.results = s.results
    ∧ (predictM s df).1.coef = s.coef
    ∧ (predictM s df).1.Rsquared = s.Rsquared
    ∧ (predictM s df).1.Rsquared_adj = s.Rsquared_adj
    ∧ (predictM s df).2 = predict s df :=
  ⟨rfl, rfl, rfl, rfl, rfl, rfl, rfl, rfl, rfl, rfl⟩
